import Mathlib

/-!
Verification of the digital-banking ledger components against their
specification.  The definitions below are a shallow embedding of the
TypeScript source:

* `handleTransfer` embeds `TransferForm.handleTransfer` from
  `src/components/AnalyticsDashboard.tsx` (lines 429-521).
* `calculateInterest`, `applyInterestStep` and `handleApplyInterest` embed
  `InterestCalculator.calculateInterest` and
  `InterestCalculator.handleApplyInterest` from
  `src/components/InterestCalculator.tsx` (lines 48-130).

Modelling conventions:

* JavaScript numbers are modelled by exact rationals `ℚ`; the amounts in the
  spec scenarios are small decimal values for which rational arithmetic
  agrees with the comparisons and sums the code performs.
* The Blink database tables `accounts` and `transactions` are modelled as
  lists; `blink.db.accounts.update(id, {balance})` replaces the balance of
  the record whose `id` matches, and `blink.db.transactions.create` appends
  a record.
* `Date.now()` is passed explicitly as a natural-number millisecond
  timestamp `now`; every identifier the code derives from it is built with
  the same string concatenation the source uses.
* The form's string field `interestRate` (for example "2.4%") is modelled by
  its parsed numeric value: `some r` stands for a string that
  `parseFloat(rate.replace(qm, qq))` parses to `r`, `none` for an absent
  field, which the source maps to rate 0 via the `|| '0'` fallback.
* The source's empty-string checks on the form fields (`!fromAccount` etc.)
  are modelled as equality with `""`; the amount field is modelled already
  parsed, so a non-numeric amount string is outside the model.
-/

namespace Banking

/-- An account record, with the fields of the `Account` interface that the
transfer and interest logic reads (`id`, `accountType`, `balance`, `status`,
`interestRate`). -/
structure Account where
  id : String
  accountType : String
  balance : ℚ
  status : String
  interestRate : Option ℚ
  deriving DecidableEq

/-- A transaction record as created by `blink.db.transactions.create` in the
transfer and interest flows (`createdAt` is filled in by the database and is
not modelled). -/
structure Transaction where
  id : String
  fromAccountId : Option String
  toAccountId : Option String
  amount : ℚ
  transactionType : String
  description : String
  referenceNumber : String
  status : String
  deriving DecidableEq

/-- The validation failures of `handleTransfer`, one per early-return branch
(each surfaces as a destructive toast in the UI). -/
inductive TransferError where
  | missingFields
  | sameAccount
  | nonPositiveAmount
  | insufficientFunds
  deriving DecidableEq

/-- `accounts.find(acc => acc.id === accId)`. -/
def findAccount : List Account → String → Option Account
  | [], _ => none
  | a :: rest, accId => if a.id = accId then some a else findAccount rest accId

/-- `blink.db.accounts.update(accId, { balance: newBalance })`: replace the
balance of the record whose id matches. -/
def updateBalance : List Account → String → ℚ → List Account
  | [], _, _ => []
  | a :: rest, accId, newBalance =>
      (if a.id = accId then { a with balance := newBalance } else a)
        :: updateBalance rest accId newBalance

/-- The reference number generated in the transfer flow:
`TXN` followed by `Date.now()`. -/
def transferReference (now : ℕ) : String :=
  "TXN" ++ toString now

/-- Result of a `handleTransfer` call: the account table, the transaction
table, and the validation error if the call returned early.  Every database
write in the source happens after all validation checks, so on an error the
tables are the unchanged inputs. -/
structure TransferOutcome where
  accounts : List Account
  transactions : List Transaction
  error : Option TransferError
  deriving DecidableEq

/-- `TransferForm.handleTransfer` (AnalyticsDashboard.tsx, lines 429-521).

The checks appear in source order: required fields, same account,
non-positive amount, then source lookup and funds check (the source account
not being found and insufficient funds share one branch in the source).  On
success the code creates a `completed` transaction, debits the source with
the balance read from the props, and credits the destination only when
`accounts.find` locates it — a missing destination is silently skipped. -/
def handleTransfer (accounts : List Account) (transactions : List Transaction)
    (fromAccount toAccount : String) (transferAmount : ℚ)
    (description : String) (now : ℕ) : TransferOutcome :=
  if fromAccount = "" ∨ toAccount = "" then
    ⟨accounts, transactions, some .missingFields⟩
  else if fromAccount = toAccount then
    ⟨accounts, transactions, some .sameAccount⟩
  else if transferAmount ≤ 0 then
    ⟨accounts, transactions, some .nonPositiveAmount⟩
  else
    match findAccount accounts fromAccount with
    | none => ⟨accounts, transactions, some .insufficientFunds⟩
    | some sourceAccount =>
      if sourceAccount.balance < transferAmount then
        ⟨accounts, transactions, some .insufficientFunds⟩
      else
        let txn : Transaction :=
          { id := "txn_" ++ toString now
            fromAccountId := some fromAccount
            toAccountId := some toAccount
            amount := transferAmount
            transactionType := "transfer"
            description := if description = "" then "Fund transfer" else description
            referenceNumber := transferReference now
            status := "completed" }
        let afterDebit :=
          updateBalance accounts fromAccount (sourceAccount.balance - transferAmount)
        let afterCredit :=
          match findAccount accounts toAccount with
          | some targetAccount =>
              updateBalance afterDebit toAccount (targetAccount.balance + transferAmount)
          | none => afterDebit
        ⟨afterCredit, transactions ++ [txn], none⟩

/-- Sum of all balances in an account table. -/
def totalBalance (accounts : List Account) : ℚ :=
  (accounts.map Account.balance).sum

/-- The accrual periods offered by the interest calculator. -/
inductive AccrualPeriod where
  | monthly
  | quarterly
  | yearly
  deriving DecidableEq

/-- `parseFloat(account.interestRate?.replace(percent, empty) || '0')`:
an absent rate parses to 0. -/
def parseRate (interestRate : Option ℚ) : ℚ :=
  interestRate.getD 0

/-- The `periodMultiplier` switch of `calculateInterest`. -/
def periodMultiplier : AccrualPeriod → ℚ
  | .monthly => 1 / 12
  | .quarterly => 1 / 4
  | .yearly => 1

/-- `InterestCalculator.calculateInterest` (InterestCalculator.tsx,
lines 48-66): `balance * rate * periodMultiplier` with `rate` the parsed
percentage divided by 100.  No rounding of any kind is applied. -/
def calculateInterest (account : Account) (period : AccrualPeriod) : ℚ :=
  account.balance * (parseRate account.interestRate / 100) * periodMultiplier period

/-- The `interestEligibleAccounts` filter: savings, investment or business
accounts. -/
def interestEligible (accounts : List Account) : List Account :=
  accounts.filter fun account =>
    account.accountType = "savings" ∨ account.accountType = "investment" ∨
      account.accountType = "business"

/-- The `transactions.create` record of the interest loop; its description
interpolates the account's rate string, modelled here by the fixed stem. -/
def interestTransaction (account : Account) (interestAmount : ℚ) (now : ℕ) :
    Transaction :=
  { id := "int_" ++ toString now ++ "_" ++ account.id
    fromAccountId := none
    toAccountId := some account.id
    amount := interestAmount
    transactionType := "interest"
    description := "Monthly interest payment"
    referenceNumber := "INT" ++ toString now
    status := "completed" }

/-- The database state the interest flow reads and writes. -/
structure LedgerState where
  accounts : List Account
  transactions : List Transaction
  deriving DecidableEq

/-- One iteration of the `for` loop in `handleApplyInterest`: when the
monthly interest of the account snapshot is positive, write
`account.balance + interestAmount` and append an interest transaction;
otherwise leave the state untouched. -/
def applyInterestStep (now : ℕ) (st : LedgerState) (account : Account) :
    LedgerState :=
  let interestAmount := calculateInterest account .monthly
  if 0 < interestAmount then
    { accounts := updateBalance st.accounts account.id (account.balance + interestAmount)
      transactions := st.transactions ++ [interestTransaction account interestAmount now] }
  else st

/-- `InterestCalculator.handleApplyInterest` (InterestCalculator.tsx,
lines 78-130): iterate the loop body over the eligible accounts of the
snapshot the component was rendered with.  The code keeps no
`lastAccrualPeriod` (the `Account` interface has no such field), so nothing
in the loop is conditioned on a previous run. -/
def handleApplyInterest (st : LedgerState) (now : ℕ) : LedgerState :=
  (interestEligible st.accounts).foldl (applyInterestStep now) st

/-- Modelled from the spec: `round(x, half-to-even)` to an integer — the
spec's §4.3 tie-breaking rule ("half-to-even"), which the source never
implements. -/
def roundHalfToEvenZ (x : ℚ) : ℤ :=
  if x - ⌊x⌋ < 1 / 2 then ⌊x⌋
  else if 1 / 2 < x - ⌊x⌋ then ⌊x⌋ + 1
  else if ⌊x⌋ % 2 = 0 then ⌊x⌋ else ⌊x⌋ + 1

/-- Modelled from the spec: rounding at "minor-unit (cent) precision,
half-to-even" — scale to cents, round half-to-even, scale back. -/
def specRoundToCents (x : ℚ) : ℚ :=
  (roundHalfToEvenZ (100 * x) : ℚ) / 100

/-- Looking up the id that was just written returns the written balance. -/
theorem findAccount_updateBalance_self (accounts : List Account) (i : String)
    (v : ℚ) (a : Account) (h : findAccount accounts i = some a) :
    findAccount (updateBalance accounts i v) i = some { a with balance := v } := by
  induction accounts with
  | nil => simp [findAccount] at h
  | cons b rest ih =>
    by_cases hb : b.id = i
    · simp [findAccount, updateBalance, hb] at h ⊢
      subst h
      exact ⟨hb.symm, rfl, rfl, rfl⟩
    · simp only [findAccount, updateBalance, if_neg hb] at h ⊢
      exact ih h

/-- Updating one account's balance does not change lookups of other ids. -/
theorem findAccount_updateBalance_ne (accounts : List Account) (i j : String)
    (v : ℚ) (h : i ≠ j) :
    findAccount (updateBalance accounts i v) j = findAccount accounts j := by
  induction accounts with
  | nil => simp [updateBalance]
  | cons b rest ih =>
    by_cases hb : b.id = i
    · have hbj : b.id ≠ j := by rw [hb]; exact h
      simp [findAccount, updateBalance, hb, hbj, h, ih]
    · simp [findAccount, updateBalance, hb, ih]

/-- C3: a transfer request with a non-positive amount or with source equal to
destination fails, alters no account balance, and creates no transaction
record. -/
theorem C3_rejection_without_side_effect
    (accounts : List Account) (transactions : List Transaction)
    (fromAccount toAccount : String) (transferAmount : ℚ)
    (description : String) (now : ℕ)
    (h : transferAmount ≤ 0 ∨ fromAccount = toAccount) :
    (handleTransfer accounts transactions fromAccount toAccount transferAmount
        description now).accounts = accounts ∧
    (handleTransfer accounts transactions fromAccount toAccount transferAmount
        description now).transactions = transactions ∧
    (handleTransfer accounts transactions fromAccount toAccount transferAmount
        description now).error.isSome = true := by
  unfold handleTransfer
  by_cases h1 : fromAccount = "" ∨ toAccount = ""
  · simp [h1]
  · rw [if_neg h1]
    by_cases h2 : fromAccount = toAccount
    · simp [h2]
    · have h3 : transferAmount ≤ 0 := h.resolve_right h2
      rw [if_neg h2, if_pos h3]
      exact ⟨rfl, rfl, rfl⟩

/-- Witness for C3 at a concrete input: amount -5 between distinct accounts
is rejected with the empty tables untouched. -/
theorem C3_rejection_without_side_effect_witness :
    ((-5 : ℚ) ≤ 0 ∨ ("A" : String) = "B") ∧
    ((handleTransfer [] [] "A" "B" (-5) "" 0).accounts = [] ∧
     (handleTransfer [] [] "A" "B" (-5) "" 0).transactions = [] ∧
     (handleTransfer [] [] "A" "B" (-5) "" 0).error.isSome = true) :=
  ⟨Or.inl (by norm_num),
   C3_rejection_without_side_effect [] [] "A" "B" (-5) "" 0 (Or.inl (by norm_num))⟩

/-- C4: a transfer whose amount exceeds the source balance returns the
insufficient-funds error and leaves both tables exactly as they were. -/
theorem C4_insufficient_funds_without_side_effect
    (accounts : List Account) (transactions : List Transaction)
    (fromAccount toAccount : String) (transferAmount : ℚ)
    (description : String) (now : ℕ) (sourceAccount : Account)
    (h1 : fromAccount ≠ "") (h2 : toAccount ≠ "")
    (h3 : fromAccount ≠ toAccount) (h4 : 0 < transferAmount)
    (h5 : findAccount accounts fromAccount = some sourceAccount)
    (h6 : sourceAccount.balance < transferAmount) :
    handleTransfer accounts transactions fromAccount toAccount transferAmount
        description now =
      ⟨accounts, transactions, some .insufficientFunds⟩ := by
  unfold handleTransfer
  rw [if_neg (by simp [h1, h2]), if_neg h3, if_neg (not_le.mpr h4)]
  simp only [h5]
  rw [if_pos h6]

/-- Witness for C4, Scenario B: source at 70.00, transfer of 100.00 fails
with the tables intact. -/
theorem C4_insufficient_funds_without_side_effect_witness :
    (("X" : String) ≠ "" ∧ ("Y" : String) ≠ "" ∧ ("X" : String) ≠ "Y" ∧
     (0 : ℚ) < 100 ∧
     findAccount
        [{ id := "X", accountType := "checking", balance := 70,
           status := "active", interestRate := none },
         { id := "Y", accountType := "checking", balance := 50,
           status := "active", interestRate := none }] "X" =
       some { id := "X", accountType := "checking", balance := 70,
              status := "active", interestRate := none } ∧
     ({ id := "X", accountType := "checking", balance := 70,
        status := "active", interestRate := none } : Account).balance < 100) ∧
    handleTransfer
        [{ id := "X", accountType := "checking", balance := 70,
           status := "active", interestRate := none },
         { id := "Y", accountType := "checking", balance := 50,
           status := "active", interestRate := none }] [] "X" "Y" 100 "" 2 =
      ⟨[{ id := "X", accountType := "checking", balance := 70,
          status := "active", interestRate := none },
        { id := "Y", accountType := "checking", balance := 50,
          status := "active", interestRate := none }], [],
       some .insufficientFunds⟩ :=
  ⟨⟨by simp, by simp, by simp, by norm_num, by simp [findAccount], by norm_num⟩,
   C4_insufficient_funds_without_side_effect
     [{ id := "X", accountType := "checking", balance := 70,
        status := "active", interestRate := none },
      { id := "Y", accountType := "checking", balance := 50,
        status := "active", interestRate := none }] [] "X" "Y" 100 "" 2
     { id := "X", accountType := "checking", balance := 70,
       status := "active", interestRate := none }
     (by simp) (by simp) (by simp) (by norm_num) (by simp [findAccount])
     (by norm_num)⟩

/-- C9: a transfer of exactly the source balance passes the strict
less-than funds check, succeeds, and leaves the source balance at 0. -/
theorem C9_exact_balance_transfer_succeeds
    (accounts : List Account) (transactions : List Transaction)
    (fromAccount toAccount : String) (transferAmount : ℚ)
    (description : String) (now : ℕ) (sourceAccount : Account)
    (h1 : fromAccount ≠ "") (h2 : toAccount ≠ "")
    (h3 : fromAccount ≠ toAccount) (h4 : 0 < transferAmount)
    (h5 : findAccount accounts fromAccount = some sourceAccount)
    (h6 : sourceAccount.balance = transferAmount) :
    (handleTransfer accounts transactions fromAccount toAccount transferAmount
        description now).error = none ∧
    findAccount (handleTransfer accounts transactions fromAccount toAccount
        transferAmount description now).accounts fromAccount =
      some { sourceAccount with balance := 0 } := by
  have hnl : ¬ sourceAccount.balance < transferAmount := by
    rw [h6]; exact lt_irrefl _
  have hsrc : sourceAccount.balance - transferAmount = 0 := by rw [h6]; ring
  unfold handleTransfer
  rw [if_neg (by simp [h1, h2]), if_neg h3, if_neg (not_le.mpr h4)]
  simp only [h5]
  rw [if_neg hnl]
  refine ⟨rfl, ?_⟩
  cases htgt : findAccount accounts toAccount with
  | none =>
      simp only [htgt]
      rw [findAccount_updateBalance_self accounts fromAccount _ sourceAccount h5,
        hsrc]
  | some targetAccount =>
      simp only [htgt]
      rw [findAccount_updateBalance_ne _ toAccount fromAccount _ (Ne.symm h3),
        findAccount_updateBalance_self accounts fromAccount _ sourceAccount h5,
        hsrc]

/-- Witness for C9: transferring the full balance 100.00 out of X succeeds
and drains X to exactly 0. -/
theorem C9_exact_balance_transfer_succeeds_witness :
    (("X" : String) ≠ "" ∧ ("Y" : String) ≠ "" ∧ ("X" : String) ≠ "Y" ∧
     (0 : ℚ) < 100 ∧
     findAccount
        [{ id := "X", accountType := "checking", balance := 100,
           status := "active", interestRate := none },
         { id := "Y", accountType := "checking", balance := 50,
           status := "active", interestRate := none }] "X" =
       some { id := "X", accountType := "checking", balance := 100,
              status := "active", interestRate := none } ∧
     ({ id := "X", accountType := "checking", balance := 100,
        status := "active", interestRate := none } : Account).balance = 100) ∧
    ((handleTransfer
        [{ id := "X", accountType := "checking", balance := 100,
           status := "active", interestRate := none },
         { id := "Y", accountType := "checking", balance := 50,
           status := "active", interestRate := none }] [] "X" "Y" 100 "" 3).error
       = none ∧
     findAccount (handleTransfer
        [{ id := "X", accountType := "checking", balance := 100,
           status := "active", interestRate := none },
         { id := "Y", accountType := "checking", balance := 50,
           status := "active", interestRate := none }] [] "X" "Y" 100 "" 3).accounts
        "X" =
       some { id := "X", accountType := "checking", balance := 0,
              status := "active", interestRate := none }) :=
  ⟨⟨by simp, by simp, by simp, by norm_num, by simp [findAccount], by norm_num⟩,
   C9_exact_balance_transfer_succeeds
     [{ id := "X", accountType := "checking", balance := 100,
        status := "active", interestRate := none },
      { id := "Y", accountType := "checking", balance := 50,
        status := "active", interestRate := none }] [] "X" "Y" 100 "" 3
     { id := "X", accountType := "checking", balance := 100,
       status := "active", interestRate := none }
     (by simp) (by simp) (by simp) (by norm_num) (by simp [findAccount])
     (by norm_num)⟩

/-- C10: an eligible account whose rate is absent or 0, or whose balance is
0, gets interest 0 and the loop body leaves the ledger untouched — no
balance change and no interest transaction. -/
theorem C10_zero_interest_account_skipped
    (st : LedgerState) (account : Account) (now : ℕ)
    (h : account.interestRate = none ∨ account.interestRate = some 0 ∨
      account.balance = 0) :
    calculateInterest account .monthly = 0 ∧
    applyInterestStep now st account = st := by
  have hz : calculateInterest account .monthly = 0 := by
    rcases h with h | h | h <;> simp [calculateInterest, parseRate, h]
  exact ⟨hz, by simp [applyInterestStep, hz]⟩

/-- Witness for C10: a savings account with no stored rate is skipped by the
interest loop. -/
theorem C10_zero_interest_account_skipped_witness :
    (({ id := "S", accountType := "savings", balance := 500,
        status := "active", interestRate := none } : Account).interestRate = none ∨
     ({ id := "S", accountType := "savings", balance := 500,
        status := "active", interestRate := none } : Account).interestRate = some 0 ∨
     ({ id := "S", accountType := "savings", balance := 500,
        status := "active", interestRate := none } : Account).balance = 0) ∧
    (calculateInterest
        { id := "S", accountType := "savings", balance := 500,
          status := "active", interestRate := none } .monthly = 0 ∧
     applyInterestStep 9
        ⟨[{ id := "S", accountType := "savings", balance := 500,
            status := "active", interestRate := none }], []⟩
        { id := "S", accountType := "savings", balance := 500,
          status := "active", interestRate := none } =
       ⟨[{ id := "S", accountType := "savings", balance := 500,
           status := "active", interestRate := none }], []⟩) :=
  ⟨Or.inl rfl,
   C10_zero_interest_account_skipped
     ⟨[{ id := "S", accountType := "savings", balance := 500,
         status := "active", interestRate := none }], []⟩
     { id := "S", accountType := "savings", balance := 500,
       status := "active", interestRate := none } 9 (Or.inl rfl)⟩

/-- The single-account ledger used to exhibit the conservation failure. -/
def c1Source : Account :=
  { id := "X", accountType := "checking", balance := 100,
    status := "active", interestRate := none }

/-- C1: the conservation claim fails on the code.  A transfer of 30.00 from
X to a destination id "Y" that is not in the caller's account list passes
every validation, reports success, records a completed transaction — and
the total balance drops from 100.00 to 70.00 because the credit leg is
silently skipped. -/
theorem C1_conservation_violated_missing_destination :
    totalBalance [c1Source] = 100 ∧
    (handleTransfer [c1Source] [] "X" "Y" 30 "" 1700000000000).error = none ∧
    totalBalance
        (handleTransfer [c1Source] [] "X" "Y" 30 "" 1700000000000).accounts = 70 ∧
    (handleTransfer [c1Source] [] "X" "Y" 30 "" 1700000000000).transactions.map
        (fun t => (t.amount, t.status)) = [(30, "completed")] := by
  refine ⟨by norm_num [totalBalance, c1Source], ?_, ?_, ?_⟩ <;>
    simp [handleTransfer, findAccount, updateBalance, totalBalance, c1Source] <;>
    norm_num

/-- The savings account used to exhibit double posting of interest. -/
def c2Savings : Account :=
  { id := "S", accountType := "savings", balance := 1000,
    status := "active", interestRate := some (24 / 10) }

/-- C2: the idempotence claim fails on the code.  There is no
`lastAccrualPeriod` and no skip: a second invocation in the same period
posts interest again, moving the balance from 1002.00 to 1004.004 and
creating a second interest transaction. -/
theorem C2_second_invocation_posts_again :
    (handleApplyInterest ⟨[c2Savings], []⟩ 1).accounts.map Account.balance =
      [1002] ∧
    (handleApplyInterest (handleApplyInterest ⟨[c2Savings], []⟩ 1) 2).accounts.map
        Account.balance = [1004004 / 1000] ∧
    (handleApplyInterest (handleApplyInterest ⟨[c2Savings], []⟩ 1) 2).transactions.length
      = 2 := by
  refine ⟨?_, ?_, ?_⟩ <;>
    simp [handleApplyInterest, interestEligible, applyInterestStep,
      calculateInterest, parseRate, periodMultiplier, updateBalance,
      c2Savings] <;>
    norm_num

/-- The three-account ledger used to exhibit the reference collision. -/
def c5Accounts : List Account :=
  [{ id := "A", accountType := "checking", balance := 100,
     status := "active", interestRate := none },
   { id := "B", accountType := "checking", balance := 50,
     status := "active", interestRate := none },
   { id := "C", accountType := "checking", balance := 50,
     status := "active", interestRate := none }]

/-- The first of two transfers executed in the same millisecond. -/
def c5FirstTransfer : TransferOutcome :=
  handleTransfer c5Accounts [] "A" "B" 10 "" 1700000000000

/-- The second transfer, in the same millisecond as the first. -/
def c5SecondTransfer : TransferOutcome :=
  handleTransfer c5FirstTransfer.accounts c5FirstTransfer.transactions
    "A" "C" 5 "" 1700000000000

/-- C5: the uniqueness claim fails on the code.  The generator is
`TXN` + `Date.now()`, a function of the millisecond timestamp alone, so two
successful transfers in the same millisecond store the same reference
number. -/
theorem C5_reference_collision_same_millisecond :
    c5FirstTransfer.error = none ∧ c5SecondTransfer.error = none ∧
    c5SecondTransfer.transactions.map Transaction.referenceNumber =
      [transferReference 1700000000000, transferReference 1700000000000] := by
  refine ⟨?_, ?_, ?_⟩ <;>
    simp [c5SecondTransfer, c5FirstTransfer, c5Accounts, handleTransfer,
      findAccount, updateBalance] <;>
    norm_num

/-- The suspended source account of the status-check scenario. -/
def c7Suspended : Account :=
  { id := "X", accountType := "checking", balance := 100,
    status := "suspended", interestRate := none }

/-- The active destination account of the status-check scenario. -/
def c7Active : Account :=
  { id := "Y", accountType := "checking", balance := 50,
    status := "active", interestRate := none }

/-- C7: the inactive-account claim fails on the code.  `handleTransfer`
never reads `status`: a transfer out of a suspended account completes,
mutates both balances, and records a completed transaction instead of
failing with a typed error. -/
theorem C7_suspended_account_transfer_completes :
    c7Suspended.status = "suspended" ∧
    (handleTransfer [c7Suspended, c7Active] [] "X" "Y" 30 "" 7).error = none ∧
    (handleTransfer [c7Suspended, c7Active] [] "X" "Y" 30 "" 7).accounts.map
        Account.balance = [70, 80] ∧
    (handleTransfer [c7Suspended, c7Active] [] "X" "Y" 30 "" 7).transactions.map
        (fun t => (t.amount, t.status)) = [(30, "completed")] := by
  refine ⟨rfl, ?_, ?_, ?_⟩ <;>
    simp [handleTransfer, findAccount, updateBalance, c7Suspended, c7Active] <;>
    norm_num

/-- Scenario A's source account X with balance 100.00. -/
def c8X : Account :=
  { id := "X", accountType := "checking", balance := 100,
    status := "active", interestRate := none }

/-- Scenario A's destination account Y with balance 50.00. -/
def c8Y : Account :=
  { id := "Y", accountType := "checking", balance := 50,
    status := "active", interestRate := none }

/-- C8, Scenario A: transferring 30.00 from X (100.00) to Y (50.00) ends
with X at 70.00 and Y at 80.00 and exactly one completed transfer
transaction of amount 30.00. -/
theorem C8_scenario_a :
    (handleTransfer [c8X, c8Y] [] "X" "Y" 30 "" 5).error = none ∧
    (handleTransfer [c8X, c8Y] [] "X" "Y" 30 "" 5).accounts.map
        Account.balance = [70, 80] ∧
    (handleTransfer [c8X, c8Y] [] "X" "Y" 30 "" 5).transactions.map
        (fun t => (t.amount, t.transactionType, t.status)) =
      [(30, "transfer", "completed")] := by
  refine ⟨?_, ?_, ?_⟩ <;>
    simp [handleTransfer, findAccount, updateBalance, c8X, c8Y] <;>
    norm_num

/-- A savings account whose exact monthly interest (2.001) differs from its
half-to-even cent rounding (2.00). -/
def c6Fractional : Account :=
  { id := "S", accountType := "savings", balance := 10005 / 10,
    status := "active", interestRate := some (24 / 10) }

/-- C6 counterexample: at balance 1000.50 and rate 2.40% the code computes
and posts 2.001, while the claimed half-to-even cent rounding gives 2.00 —
so the posted amount is not `round(balance * rate / 12)`. -/
theorem C6_counterexample_no_rounding :
    calculateInterest c6Fractional .monthly = 2001 / 1000 ∧
    specRoundToCents (calculateInterest c6Fractional .monthly) = 2 ∧
    (handleApplyInterest ⟨[c6Fractional], []⟩ 3).transactions.map
        Transaction.amount = [2001 / 1000] ∧
    calculateInterest c6Fractional .monthly ≠
      specRoundToCents (calculateInterest c6Fractional .monthly) := by
  have h1 : calculateInterest c6Fractional .monthly = 2001 / 1000 := by
    norm_num [calculateInterest, parseRate, periodMultiplier, c6Fractional]
  have h2 : specRoundToCents ((2001 : ℚ) / 1000) = 2 := by
    have hf : ⌊(100 : ℚ) * (2001 / 1000)⌋ = 200 := by norm_num
    norm_num [specRoundToCents, roundHalfToEvenZ, hf]
  refine ⟨h1, by rw [h1]; exact h2, ?_, by rw [h1]; rw [h2]; norm_num⟩
  simp [handleApplyInterest, interestEligible, applyInterestStep,
    calculateInterest, parseRate, periodMultiplier, updateBalance,
    interestTransaction, c6Fractional]
  norm_num

/-- C6 amended: the interest the loop posts for an account is the exact,
unrounded product `balance * (ratePerAnnum / 100 / 12)`: the balance is
credited with exactly that amount and the interest transaction carries
exactly that amount. -/
theorem C6_amended_exact_unrounded_product
    (account : Account) (st : LedgerState) (now : ℕ)
    (h : 0 < calculateInterest account .monthly) :
    calculateInterest account .monthly =
      account.balance * (parseRate account.interestRate / 100 / 12) ∧
    (applyInterestStep now st account).accounts =
      updateBalance st.accounts account.id
        (account.balance + calculateInterest account .monthly) ∧
    (applyInterestStep now st account).transactions =
      st.transactions ++
        [interestTransaction account (calculateInterest account .monthly) now] := by
  refine ⟨?_, ?_, ?_⟩
  · simp only [calculateInterest, periodMultiplier]
    ring
  · simp [applyInterestStep, if_pos h]
  · simp [applyInterestStep, if_pos h]

/-- Witness for the amended C6, Scenario C: a balance of 1000.00 at 2.40%
per annum posts exactly 2.00 and the balance becomes 1002.00. -/
theorem C6_amended_exact_unrounded_product_witness :
    ((0 : ℚ) < calculateInterest
        { id := "S", accountType := "savings", balance := 1000,
          status := "active", interestRate := some (24 / 10) } .monthly) ∧
    (calculateInterest
        { id := "S", accountType := "savings", balance := 1000,
          status := "active", interestRate := some (24 / 10) } .monthly =
      ({ id := "S", accountType := "savings", balance := 1000,
         status := "active", interestRate := some (24 / 10) } : Account).balance *
        (parseRate
          ({ id := "S", accountType := "savings", balance := 1000,
             status := "active",
             interestRate := some (24 / 10) } : Account).interestRate / 100 / 12) ∧
     (applyInterestStep 4
        ⟨[{ id := "S", accountType := "savings", balance := 1000,
            status := "active", interestRate := some (24 / 10) }], []⟩
        { id := "S", accountType := "savings", balance := 1000,
          status := "active", interestRate := some (24 / 10) }).accounts =
       updateBalance
         [{ id := "S", accountType := "savings", balance := 1000,
            status := "active", interestRate := some (24 / 10) }] "S"
         (1000 + calculateInterest
            { id := "S", accountType := "savings", balance := 1000,
              status := "active", interestRate := some (24 / 10) } .monthly) ∧
     (applyInterestStep 4
        ⟨[{ id := "S", accountType := "savings", balance := 1000,
            status := "active", interestRate := some (24 / 10) }], []⟩
        { id := "S", accountType := "savings", balance := 1000,
          status := "active", interestRate := some (24 / 10) }).transactions =
       [] ++ [interestTransaction
          { id := "S", accountType := "savings", balance := 1000,
            status := "active", interestRate := some (24 / 10) }
          (calculateInterest
            { id := "S", accountType := "savings", balance := 1000,
              status := "active", interestRate := some (24 / 10) } .monthly) 4]) :=
  ⟨by norm_num [calculateInterest, parseRate, periodMultiplier],
   C6_amended_exact_unrounded_product
     { id := "S", accountType := "savings", balance := 1000,
       status := "active", interestRate := some (24 / 10) }
     ⟨[{ id := "S", accountType := "savings", balance := 1000,
         status := "active", interestRate := some (24 / 10) }], []⟩ 4
     (by norm_num [calculateInterest, parseRate, periodMultiplier])⟩

end Banking
